import Mathlib

/-!
Verification of the core of `hf_recur.py` (recursive Hugging Face downloader).

The script is embedded shallowly:

* `parse_hf_url` models the URL parser (lines 86-141); the generic URL split
  (`urlparse`) is taken at its boundary, so the embedded function receives the
  host (`netloc`) and the URL path string.
* `get_files_recursive` models the recursive, paginated tree walk
  (lines 144-295).  The remote API is an oracle `HfEnv`: `HfEnv.fetch path i`
  is the outcome of the whole request-with-retries block (lines 179-206) for
  the `i`-th page requested for `path` (`i = 0` is the cursor-less first page,
  `i+1` the page requested with the cursor returned by page `i`);
  `FetchOutcome.ok` means some attempt returned HTTP 2xx with a JSON body,
  `FetchOutcome.exhausted` means every retry attempt failed, which makes the
  source execute `return []` (line 206).  `HfEnv.headOk url` tells whether the
  single-file existence check (HEAD, line 224) reported status 200.
  Since the walk can diverge (a remote may serve cursors forever) the loop is
  written with explicit fuel; `none` means "still running after `fuel` pages".
* `download_file_with_wget` models the wget retry loop (lines 340-381); the
  external wget process is an oracle `run : Nat -> WgetResult` giving the
  outcome of each attempt, and the function returns the classification
  together with the backoff waits performed and the number of attempts made.
* `collectFiles`, `downloadLoop`, `mainExitCode`, `fullSavePath` model the
  `__main__` driver (lines 385-474).
-/

/-- Is the first list a prefix of the second (boolean)? -/
def listIsPre : List Char → List Char → Bool
  | [], _ => true
  | _ :: _, [] => false
  | a :: as, b :: bs => a == b && listIsPre as bs

/-- Is the first list a contiguous sublist of the second (boolean)? -/
def listIsSub : List Char → List Char → Bool
  | needle, [] => needle.isEmpty
  | needle, b :: bs => listIsPre needle (b :: bs) || listIsSub needle bs

/-- Python `needle in hay` on strings: substring test. -/
def containsSub (hay needle : String) : Bool :=
  listIsSub needle.data hay.data

/-- Python `s.strip('/')`: remove every leading and trailing `'/'`. -/
def stripSlashes (s : String) : String :=
  ⟨((s.data.dropWhile (fun c => c = '/')).reverse.dropWhile (fun c => c = '/')).reverse⟩

/-- Python `s.lstrip('/')` (line 455): remove every leading `'/'`. -/
def lstripSlash (s : String) : String :=
  ⟨s.data.dropWhile (fun c => c = '/')⟩

/-- Does the string start with `'/'`?  (`os.path.join` treats such a second
argument as absolute and discards the first argument.) -/
def strStartsWithSlash (s : String) : Bool :=
  match s.data with
  | [] => false
  | c :: _ => c == '/'

/-- Does the string end with `'/'`? -/
def strEndsWithSlash (s : String) : Bool :=
  match s.data.getLast? with
  | some c => c == '/'
  | none => false

/-- POSIX `os.path.join a b` for a single join step. -/
def osPathJoin (a b : String) : String :=
  if strStartsWithSlash b then b
  else if a = "" then b
  else if strEndsWithSlash a then a ++ b
  else a ++ "/" ++ b

/-- Python `s.split('/')` at the character-list level (total, structural). -/
def splitSegs : List Char → List (List Char)
  | [] => [[]]
  | c :: cs =>
    if c = '/' then [] :: splitSegs cs
    else
      match splitSegs cs with
      | [] => [[c]]
      | s :: rest => (c :: s) :: rest

/-- Python `s.split('/')` on strings. -/
def splitSlash (s : String) : List String :=
  (splitSegs s.data).map (fun l => ⟨l⟩)

/-- The path string has a `".."` segment (segments separated by `'/'`). -/
def hasDotDot (s : String) : Prop :=
  ['.', '.'] ∈ splitSegs s.data

instance (s : String) : Decidable (hasDotDot s) := by
  unfold hasDotDot; infer_instance

/-- Line 455-456 of the driver: `relative_path.lstrip('/')` joined under the
output directory with `os.path.join`. -/
def fullSavePath (outputDir relPath : String) : String :=
  osPathJoin outputDir (lstripSlash relPath)

/-- The path `p` lies inside `outputDir`: it is the directory (with a trailing
slash) followed by a remainder that is not absolute and has no `".."`
segment. -/
def liesInside (outputDir p : String) : Prop :=
  ∃ r : String, strStartsWithSlash r = false ∧ ¬ hasDotDot r ∧
    p = (if strEndsWithSlash outputDir then outputDir else outputDir ++ "/") ++ r

/-- Result of `parse_hf_url` (lines 86-141): repo id, ref, path inside the
repo, and whether the URL is a direct file (`/resolve/`) link. -/
structure ParsedHf where
  repoId : String
  ref : String
  repoPath : String
  isFileUrl : Bool
deriving DecidableEq

/-- Lines 98-137: parse the already-split URL (host and URL path). -/
def parse_hf_url (netloc pathStr : String) : Option ParsedHf :=
  if netloc = "huggingface.co" then
    match splitSlash (stripSlashes pathStr) with
    | p0 :: p1 :: rest =>
      match rest with
      | [] => some ⟨p0 ++ "/" ++ p1, "main", "", false⟩
      | pt :: rest2 =>
        if pt = "tree" ∨ pt = "resolve" then
          match rest2 with
          | [] => some ⟨p0 ++ "/" ++ p1, "main", "", pt == "resolve"⟩
          | r :: rest3 =>
            some ⟨p0 ++ "/" ++ p1, r, String.intercalate "/" rest3, pt == "resolve"⟩
        else
          some ⟨p0 ++ "/" ++ p1, "main", String.intercalate "/" (pt :: rest2), false⟩
    | _ => none
  else none

/-- A manifest entry: `(download_url, relative_save_path)` (line 161). -/
abbrev ManifestItem := String × String

/-- Line 221/261: the resolve-style download URL for a repo path. -/
def resolveUrl (repoId ref p : String) : String :=
  "https://huggingface.co/" ++ repoId ++ "/resolve/" ++ ref ++ "/" ++ p

/-- The manifest tuple appended for a file at path `p` (lines 261-263). -/
def mkFileItem (repoId ref p : String) : ManifestItem :=
  (resolveUrl repoId ref p, p)

/-- One JSON object of a listing page (`item.get('path')`, `item.get('type')`,
`item.get('size')`, lines 248-250); absent keys are `none`. -/
structure ApiItem where
  path : Option String
  type : Option String
  size : Option Nat
deriving DecidableEq

/-- A file entry as served by the listing API. -/
def fileApiItem (p : String) : ApiItem := ⟨some p, some "file", none⟩

/-- A directory entry as served by the listing API. -/
def dirApiItem (p : String) : ApiItem := ⟨some p, some "directory", none⟩

/-- The JSON body of a successful (HTTP 2xx) listing response: a list of
items, a dict carrying an `error` message, or anything else (line 209/235). -/
inductive ApiBody where
  | entries (items : List ApiItem)
  | errorPayload (msg : String)
  | other
deriving DecidableEq

/-- A successful listing response: body plus the `X-Next-Cursor` header
(line 280), `none` when the header is absent. -/
structure ApiPage where
  body : ApiBody
  nextCursor : Option String
deriving DecidableEq

/-- Outcome of the request-with-retries block (lines 179-206) for one page:
either some attempt succeeded, or every retry failed (`return []`). -/
inductive FetchOutcome where
  | ok (page : ApiPage)
  | exhausted
deriving DecidableEq

/-- The remote service, as the walker observes it. -/
structure HfEnv where
  fetch : String → Nat → FetchOutcome
  headOk : String → Bool

/-- Line 216: the error message marks the path as a file, not a directory. -/
def isNotDirMsg (msg : String) : Bool :=
  containsSub msg "is not a directory" || containsSub msg "Cannot get tree"

/-- Lines 246-276: the `for item in content` loop.  `walk` performs the
recursive call for a subdirectory (line 269, a fresh listing from page 0 with
an empty accumulator). -/
def processItems (repoId ref : String) (walk : String → Option (List ManifestItem)) :
    List ApiItem → List ManifestItem → Option (List ManifestItem)
  | [], acc => some acc
  | it :: rest, acc =>
    match it.path, it.type with
    | some ipath, some itype =>
      if itype = "file" then
        processItems repoId ref walk rest (acc ++ [mkFileItem repoId ref ipath])
      else if itype = "directory" then
        match walk ipath with
        | none => none
        | some sub => processItems repoId ref walk rest (acc ++ sub)
      else processItems repoId ref walk rest acc
    | _, _ => processItems repoId ref walk rest acc

/-- One iteration of the `while True` page loop (lines 169-292) for `path`,
requesting page `pageIdx` with accumulator `acc`; `prev` runs the rest of the
computation (one fuel unit less). -/
def listStep (env : HfEnv) (repoId ref : String)
    (prev : String → Nat → List ManifestItem → Option (List ManifestItem))
    (path : String) (pageIdx : Nat) (acc : List ManifestItem) :
    Option (List ManifestItem) :=
  match env.fetch path pageIdx with
  | .exhausted => some []
  | .ok page =>
    match page.body with
    | .errorPayload msg =>
      if isNotDirMsg msg then
        if pageIdx == 0 && acc.isEmpty then
          if env.headOk (resolveUrl repoId ref path) then
            some (acc ++ [mkFileItem repoId ref path])
          else some acc
        else some acc
      else some acc
    | .other => some acc
    | .entries items =>
      match processItems repoId ref (fun p => prev p 0 []) items acc with
      | none => none
      | some acc2 =>
        match page.nextCursor with
        | some c => if c.isEmpty then some acc2 else prev path (pageIdx + 1) acc2
        | none => some acc2

/-- The page loop with fuel: `none` means the loop is still running after
`fuel` iterations (the source has no bound of its own). -/
def listLoop (env : HfEnv) (repoId ref : String) (fuel : Nat) :
    String → Nat → List ManifestItem → Option (List ManifestItem) :=
  Nat.rec (motive := fun _ => String → Nat → List ManifestItem → Option (List ManifestItem))
    (fun _ _ _ => none)
    (fun _ prev => listStep env repoId ref prev)
    fuel

/-- Lines 144-295: `get_files_recursive(repo_id, path, ref, ...)` — start the
page loop at the cursor-less first page with an empty accumulator. -/
def get_files_recursive (env : HfEnv) (repoId ref : String) (fuel : Nat) (path : String) :
    Option (List ManifestItem) :=
  listLoop env repoId ref fuel path 0 []

/-- Outcome of one wget invocation: clean exit, or `CalledProcessError` with
a return code and captured stderr (lines 344-352). -/
inductive WgetResult where
  | ok
  | err (returncode : Int) (stderr : String)
deriving DecidableEq

/-- Python `s.lower()`, character by character. -/
def lowerStr (s : String) : String :=
  ⟨s.data.map Char.toLower⟩

/-- Lines 355-356: stderr (lowercased) reports that the file is already
complete. -/
def alreadyComplete (stderr : String) : Bool :=
  containsSub (lowerStr stderr) "file exists" && containsSub (lowerStr stderr) "already fully retrieved"

/-- Observable behaviour of one `download_file_with_wget` call: the returned
boolean, the backoff waits slept (in order), and how many times wget ran. -/
structure FetchTrace where
  success : Bool
  delays : List ℚ
  attempts : Nat
deriving DecidableEq

/-- Lines 340-381: the wget retry loop.  `currentRetry` is the source's
`current_retry`; `remaining` counts how many loop iterations the guard
`current_retry <= retries` still allows, so the entry call uses
`remaining = retries + 1`. -/
def wgetGo (run : Nat → WgetResult) (retries : Nat) (backoff : ℚ) :
    Nat → Nat → FetchTrace
  | _, 0 => ⟨false, [], 0⟩
  | currentRetry, remaining + 1 =>
    match run currentRetry with
    | .ok => ⟨true, [], 1⟩
    | .err _ stderr =>
      if alreadyComplete stderr then ⟨true, [], 1⟩
      else if currentRetry + 1 ≤ retries then
        ⟨(wgetGo run retries backoff (currentRetry + 1) remaining).success,
         backoff * 2 ^ (currentRetry + 1 - 1) ::
           (wgetGo run retries backoff (currentRetry + 1) remaining).delays,
         (wgetGo run retries backoff (currentRetry + 1) remaining).attempts + 1⟩
      else ⟨false, [], 1⟩

/-- `download_file_with_wget` (lines 298-381): run the retry loop from
`current_retry = 0`. -/
def download_file_with_wget (run : Nat → WgetResult) (retries : Nat) (backoff : ℚ) :
    FetchTrace :=
  wgetGo run retries backoff 0 (retries + 1)

/-- Lines 406-432 of `__main__`: how the manifest is collected from the parsed
URL.  A `/resolve/` URL without `--file` goes through `get_files_recursive`
(line 415); `--file` queues the single resolve-style item (lines 424-427);
otherwise the tree is walked recursively (line 432). -/
def collectFiles (env : HfEnv) (repoId ref initialPath : String)
    (isFileUrl forceFile : Bool) (fuel : Nat) : Option (List ManifestItem) :=
  if isFileUrl && !forceFile then
    get_files_recursive env repoId ref fuel initialPath
  else if forceFile then
    some [mkFileItem repoId ref initialPath]
  else
    get_files_recursive env repoId ref fuel initialPath

/-- Lines 451-461: the per-item download loop; `fetchOk` is the outcome of
`download_file_with_wget` for an item.  Returns (successes, failures). -/
def downloadLoop (fetchOk : ManifestItem → Bool) (manifest : List ManifestItem) :
    Nat × Nat :=
  manifest.foldl
    (fun counts it => if fetchOk it then (counts.1 + 1, counts.2) else (counts.1, counts.2 + 1))
    (0, 0)

/-- Lines 397-474: process exit code.  `exit(1)` when the URL did not parse
(line 399), `exit(1)` when any download failed (line 471), `exit(0)`
otherwise (line 474). -/
def mainExitCode (parsed : Option ParsedHf) (fetchOk : ManifestItem → Bool)
    (manifest : List ManifestItem) : Nat :=
  match parsed with
  | none => 1
  | some _ =>
    if (downloadLoop fetchOk manifest).2 > 0 then 1 else 0

/-- The manifest produced by pages `i, i+1, ..., i+m-1` of a flat directory,
where page `j` serves the file paths `pages j`. -/
def flatManifest (repoId ref : String) (pages : Nat → List String) :
    Nat → Nat → List ManifestItem
  | _, 0 => []
  | i, m + 1 => (pages i).map (mkFileItem repoId ref) ++ flatManifest repoId ref pages (i + 1) m

/-- The file paths served on pages `i, ..., i+m-1`, concatenated in order. -/
def pathsConcat (pages : Nat → List String) : Nat → Nat → List String
  | _, 0 => []
  | i, m + 1 => pages i ++ pathsConcat pages (i + 1) m

/-- Remote with two sibling directories: listing `A` yields one entry and a
cursor, then exhausts the retries on its second page; listing `B` yields three
entries normally (the scenario of spec section 8, last bullet). -/
def c1Env : HfEnv where
  fetch := fun p i =>
    if p = "" then
      (if i = 0 then .ok ⟨.entries [dirApiItem "A", dirApiItem "B"], none⟩ else .exhausted)
    else if p = "A" then
      (if i = 0 then .ok ⟨.entries [fileApiItem "A/f1"], some "cur1"⟩ else .exhausted)
    else if p = "B" then
      (if i = 0 then
        .ok ⟨.entries [fileApiItem "B/g1", fileApiItem "B/g2", fileApiItem "B/g3"], none⟩
      else .exhausted)
    else .exhausted
  headOk := fun _ => false

/-- Remote on which the path `cfg` lists as a directory with two files. -/
def c2EnvA : HfEnv where
  fetch := fun p i =>
    if p = "cfg" ∧ i = 0 then .ok ⟨.entries [fileApiItem "cfg/x", fileApiItem "cfg/y"], none⟩
    else .exhausted
  headOk := fun _ => false

/-- Remote whose listing endpoint always fails (retries exhausted). -/
def c2EnvB : HfEnv where
  fetch := fun _ _ => .exhausted
  headOk := fun _ => false

/-- Remote whose first listing response for `cfg.json` is a "not a directory"
error payload and whose HEAD existence check fails. -/
def c4Env : HfEnv where
  fetch := fun p i =>
    if p = "cfg.json" ∧ i = 0 then
      .ok ⟨.errorPayload "Cannot get tree for file path cfg.json", none⟩
    else .exhausted
  headOk := fun _ => false

/-- Remote whose first listing response for `cfg.json` is a "not a directory"
error payload and whose HEAD existence check confirms the single file. -/
def c4EnvB : HfEnv where
  fetch := fun p i =>
    if p = "cfg.json" ∧ i = 0 then
      .ok ⟨.errorPayload "cfg.json is not a directory", none⟩
    else .exhausted
  headOk := fun u => u == resolveUrl "o/r" "main" "cfg.json"

/-- Pages served for the flat directory `m`: two pages of two files each. -/
def c5pages : Nat → List String :=
  fun j => if j = 0 then ["m/a.bin", "m/b.bin"] else if j = 1 then ["m/c.bin", "m/d.bin"] else []

/-- Remote serving the flat directory `m` as two pages with a cursor on the
first page only. -/
def c5Env : HfEnv where
  fetch := fun p i =>
    if p = "m" then
      (if i = 0 then .ok ⟨.entries ((c5pages 0).map fileApiItem), some "x"⟩
      else if i = 1 then .ok ⟨.entries ((c5pages 1).map fileApiItem), none⟩
      else .exhausted)
    else .exhausted
  headOk := fun _ => false

/-- Adversarial remote: every listing request answers with an empty entry
list plus a continuation cursor, forever. -/
def c9Adv : HfEnv where
  fetch := fun _ _ => .ok ⟨.entries [], some "c"⟩
  headOk := fun _ => false

/-- Pages served for the directory `e`: an empty first page (with cursor) and
a second page with one file and no cursor. -/
def c9pages : Nat → List String :=
  fun j => if j = 1 then ["e/z.txt"] else []

/-- Remote serving the directory `e` as an empty page carrying a cursor,
followed by a final page with one file. -/
def c9Env : HfEnv where
  fetch := fun p i =>
    if p = "e" then
      (if i = 0 then .ok ⟨.entries [], some "k"⟩
      else if i = 1 then .ok ⟨.entries ((c9pages 1).map fileApiItem), none⟩
      else .exhausted)
    else .exhausted
  headOk := fun _ => false

/-- wget oracle that fails twice with a retryable error, then succeeds. -/
def c3Run : Nat → WgetResult :=
  fun n =>
    if n = 0 then .err 4 "Read error (Connection timed out)"
    else if n = 1 then .err 4 "Read error (Connection timed out)"
    else .ok

/-- wget oracle reporting, with a nonzero exit code, that the destination
file is already complete. -/
def c6Run : Nat → WgetResult :=
  fun _ => .err 1 "The output file exists and is already fully retrieved; nothing to do."

/-! ## Unfolding lemmas -/

/-- Unfolding: one unit of fuel runs one iteration of the page loop. -/
theorem listLoop_succ (env : HfEnv) (repoId ref : String) (fuel : Nat) :
    listLoop env repoId ref (fuel + 1) = listStep env repoId ref (listLoop env repoId ref fuel) :=
  rfl

/-- A wget attempt that exits cleanly ends the loop with success after this
single attempt. -/
theorem wgetGo_ok (run : Nat → WgetResult) (retries : Nat) (backoff : ℚ)
    (currentRetry remaining : Nat) (h : run currentRetry = WgetResult.ok) :
    wgetGo run retries backoff currentRetry (remaining + 1) = ⟨true, [], 1⟩ := by
  simp [wgetGo, h]

/-- A wget attempt reporting "already fully retrieved" ends the loop with
success after this single attempt. -/
theorem wgetGo_already (run : Nat → WgetResult) (retries : Nat) (backoff : ℚ)
    (currentRetry remaining : Nat) (rc : Int) (s : String)
    (h : run currentRetry = WgetResult.err rc s) (hs : alreadyComplete s = true) :
    wgetGo run retries backoff currentRetry (remaining + 1) = ⟨true, [], 1⟩ := by
  simp [wgetGo, h, hs]

/-- A failing attempt with retries left sleeps `backoff * 2 ^ (n - 1)` (for
`n` the new value of `current_retry`) and loops. -/
theorem wgetGo_retry (run : Nat → WgetResult) (retries : Nat) (backoff : ℚ)
    (currentRetry remaining : Nat) (rc : Int) (s : String)
    (h : run currentRetry = WgetResult.err rc s) (hs : alreadyComplete s = false)
    (hle : currentRetry + 1 ≤ retries) :
    wgetGo run retries backoff currentRetry (remaining + 1) =
      ⟨(wgetGo run retries backoff (currentRetry + 1) remaining).success,
       backoff * 2 ^ (currentRetry + 1 - 1) ::
         (wgetGo run retries backoff (currentRetry + 1) remaining).delays,
       (wgetGo run retries backoff (currentRetry + 1) remaining).attempts + 1⟩ := by
  simp [wgetGo, h, hs, hle]

/-! ## Pagination lemmas -/

/-- Processing a page of file entries appends one manifest item per entry, in
served order. -/
theorem processItems_files (repoId ref : String)
    (walk : String → Option (List ManifestItem)) (ps : List String) :
    ∀ acc, processItems repoId ref walk (ps.map fileApiItem) acc =
      some (acc ++ ps.map (mkFileItem repoId ref)) := by
  induction ps with
  | nil => intro acc; simp [processItems]
  | cons p ps ih =>
    intro acc
    simp only [List.map_cons, processItems, fileApiItem, ih]
    simp

/-- Walking a flat directory served as pages of file entries, with a
(nonempty) cursor on every page but the last, collects exactly the served
entries in order, appended to the accumulator. -/
theorem listLoop_flat (env : HfEnv) (repoId ref path : String) (pages : Nat → List String)
    (cur : Nat → String) (N : Nat)
    (hcur : ∀ j, j + 1 < N → (cur j).isEmpty = false)
    (hfetch : ∀ j, j < N → env.fetch path j =
      FetchOutcome.ok ⟨ApiBody.entries ((pages j).map fileApiItem),
        if j + 1 < N then some (cur j) else none⟩) :
    ∀ (m i fuel : Nat) (acc : List ManifestItem), i + (m + 1) = N → m + 1 ≤ fuel →
      listLoop env repoId ref fuel path i acc =
        some (acc ++ flatManifest repoId ref pages i (m + 1)) := by
  intro m
  induction m with
  | zero =>
    intro i fuel acc hiN hfuel
    obtain ⟨f, rfl⟩ : ∃ f, fuel = f + 1 := ⟨fuel - 1, by omega⟩
    have hf := hfetch i (by omega)
    rw [if_neg (by omega)] at hf
    rw [listLoop_succ]
    simp [listStep, hf, processItems_files, flatManifest]
  | succ m ih =>
    intro i fuel acc hiN hfuel
    obtain ⟨f, rfl⟩ : ∃ f, fuel = f + 1 := ⟨fuel - 1, by omega⟩
    have hf := hfetch i (by omega)
    rw [if_pos (by omega)] at hf
    rw [listLoop_succ]
    simp only [listStep, hf, processItems_files]
    rw [if_neg (show ¬ ((cur i).isEmpty = true) by simp [hcur i (by omega)])]
    rw [ih (i + 1) f (acc ++ (pages i).map (mkFileItem repoId ref)) (by omega) (by omega)]
    simp [flatManifest]

/-- The flat manifest is the concatenation of the served paths, mapped to
file items. -/
theorem flatManifest_eq_map (repoId ref : String) (pages : Nat → List String) :
    ∀ m i, flatManifest repoId ref pages i m =
      (pathsConcat pages i m).map (mkFileItem repoId ref) := by
  intro m
  induction m with
  | zero => intro i; simp [flatManifest, pathsConcat]
  | succ m ih => intro i; simp [flatManifest, pathsConcat, ih]

/-- Length of the flat manifest when every page has `k` entries. -/
theorem flatManifest_length (repoId ref : String) (pages : Nat → List String) (k : Nat) :
    ∀ m i, (∀ j, i ≤ j → j < i + m → (pages j).length = k) →
      (flatManifest repoId ref pages i m).length = m * k := by
  intro m
  induction m with
  | zero => intro i _; simp [flatManifest]
  | succ m ih =>
    intro i hlen
    have h1 : (pages i).length = k := hlen i (le_refl i) (by omega)
    have h2 := ih (i + 1) (fun j hj1 hj2 => hlen j (by omega) (by omega))
    simp [flatManifest, h1, h2]
    ring

/-! ## Driver lemmas -/

/-- The download loop's fold, from an arbitrary starting tally. -/
theorem downloadLoop_fold (fetchOk : ManifestItem → Bool) :
    ∀ (l : List ManifestItem) (s f : Nat),
      l.foldl
        (fun counts it =>
          if fetchOk it then (counts.1 + 1, counts.2) else (counts.1, counts.2 + 1))
        (s, f) =
      (s + (l.filter (fun it => fetchOk it)).length,
       f + (l.filter (fun it => !fetchOk it)).length) := by
  intro l
  induction l with
  | nil => intro s f; simp
  | cons a l ih =>
    intro s f
    by_cases h : fetchOk a = true
    · simp [List.filter_cons, h, ih]
      omega
    · simp only [Bool.not_eq_true] at h
      simp [List.filter_cons, h, ih]
      omega

/-- Filtering a list by a predicate and by its negation splits its length. -/
theorem filter_split_length (p : ManifestItem → Bool) :
    ∀ l : List ManifestItem,
      (l.filter (fun it => p it)).length + (l.filter (fun it => !p it)).length = l.length := by
  intro l
  induction l with
  | nil => simp
  | cons a l ih =>
    by_cases h : p a = true
    · simp [List.filter_cons, h]; omega
    · simp only [Bool.not_eq_true] at h
      simp [List.filter_cons, h]; omega

/-! ## Path lemmas -/

/-- Heads of `dropWhile` never satisfy the dropped predicate. -/
theorem dropWhile_head_false {α : Type} (p : α → Bool) :
    ∀ (l : List α) (c : α) (cs : List α), l.dropWhile p = c :: cs → p c = false := by
  intro l
  induction l with
  | nil => intro c cs h; simp [List.dropWhile] at h
  | cons a as ih =>
    intro c cs h
    rw [List.dropWhile_cons] at h
    by_cases ha : p a = true
    · rw [if_pos ha] at h
      exact ih c cs h
    · rw [if_neg ha] at h
      cases h
      simp only [Bool.not_eq_true] at ha
      exact ha

/-- The stripped relative path never starts with a slash. -/
theorem lstrip_no_slash (s : String) : strStartsWithSlash (lstripSlash s) = false := by
  unfold strStartsWithSlash
  split
  · rfl
  · next c cs heq =>
    have := dropWhile_head_false (fun c => decide (c = '/')) s.data c cs heq
    simpa using this

/-- Splitting after dropping leading slashes yields a suffix of the original
segments. -/
theorem splitSegs_dropWhile_suffix :
    ∀ l : List Char, (splitSegs (l.dropWhile (fun c => c = '/'))) <:+ splitSegs l := by
  intro l
  induction l with
  | nil => simp [List.dropWhile]
  | cons a as ih =>
    by_cases ha : a = '/'
    · rw [List.dropWhile_cons, if_pos (by simp [ha])]
      have h2 : splitSegs (a :: as) = [] :: splitSegs as := by
        simp [splitSegs, ha]
      rw [h2]
      exact ih.trans (List.suffix_cons [] (splitSegs as))
    · rw [List.dropWhile_cons, if_neg (by simp [ha])]

/-- Stripping leading slashes cannot introduce a `".."` segment. -/
theorem hasDotDot_lstrip (s : String) (h : ¬ hasDotDot s) : ¬ hasDotDot (lstripSlash s) := by
  unfold hasDotDot at *
  intro hm
  exact h ((splitSegs_dropWhile_suffix s.data).subset hm)

/-- Against a remote that always answers an empty page with a cursor, the
page loop consumes any amount of fuel without finishing. -/
theorem c9Adv_loops (repoId ref : String) :
    ∀ (fuel : Nat) (path : String) (i : Nat) (acc : List ManifestItem),
      listLoop c9Adv repoId ref fuel path i acc = none := by
  intro fuel
  induction fuel with
  | zero => intro path i acc; rfl
  | succ f ih =>
    intro path i acc
    rw [listLoop_succ]
    simp [listStep, c9Adv, processItems]
    exact ih path (i + 1) acc

/-! ## Claim C1 -/

/-- Claim C1, amended: when the request for a page of `path` exhausts its
retries, the listing for that path stops immediately and returns the empty
list, discarding whatever had already been collected for that path (the
source's `return []`, line 206); siblings of the failed directory still
contribute their own entries (see `C1_counterexample` for the 0 + 3 = 3 item
outcome of the spec's example scenario). -/
theorem C1_retry_exhaustion_discards (env : HfEnv) (repoId ref : String)
    (fuel : Nat) (path : String) (pageIdx : Nat) (acc : List ManifestItem)
    (h : env.fetch path pageIdx = FetchOutcome.exhausted) :
    listLoop env repoId ref (fuel + 1) path pageIdx acc = some [] := by
  rw [listLoop_succ]
  simp [listStep, h]

/-- Witness for C1: directory `A` of `c1Env` collected one file on page 0 and
exhausts retries on page 1; its listing result is `[]`, not the collected
item. -/
theorem C1_witness :
    listLoop c1Env "o/r" "main" 1 "A" 1 [mkFileItem "o/r" "main" "A/f1"] = some [] :=
  C1_retry_exhaustion_discards c1Env "o/r" "main" 0 "A" 1 [mkFileItem "o/r" "main" "A/f1"] rfl

/-- Counterexample to C1 as stated: in the spec's scenario (directory `A`
yields 1 entry then exhausts retries, sibling `B` yields 3 entries) the
combined manifest has 3 items — `A`'s already-collected entry is discarded —
not the claimed 4. -/
theorem C1_counterexample :
    get_files_recursive c1Env "o/r" "main" 10 "" =
      some [mkFileItem "o/r" "main" "B/g1", mkFileItem "o/r" "main" "B/g2",
            mkFileItem "o/r" "main" "B/g3"] ∧
    (get_files_recursive c1Env "o/r" "main" 10 "").map List.length = some 3 := ⟨rfl, rfl⟩

/-! ## Claim C2 -/

/-- Claim C2, amended: only when the caller forces file interpretation
(`--file`) does the driver emit exactly one `ManifestItem` built from the
resolve-style URL, without contacting the listing endpoint (the result is the
same for every remote `env`).  A `/resolve/` URL without `--file` instead
goes through the recursive lister (see `C2_counterexample`). -/
theorem C2_force_file_single_item (env : HfEnv) (repoId ref initialPath : String)
    (isFileUrl : Bool) (fuel : Nat) :
    collectFiles env repoId ref initialPath isFileUrl true fuel =
      some [mkFileItem repoId ref initialPath] := by
  cases isFileUrl <;> simp [collectFiles]

/-- Counterexample to C2 as stated: for a locator with kind hint File
(`/resolve/` URL, `isFileUrl = true`) and no `--file` flag, the driver does
contact the listing endpoint: against `c2EnvA` (path lists as a directory of
two files) it emits two items, and against `c2EnvB` (listing always fails) it
emits none — not "exactly one item, without contacting the listing
endpoint". -/
theorem C2_counterexample :
    collectFiles c2EnvA "o/r" "main" "cfg" true false 2 =
      some [mkFileItem "o/r" "main" "cfg/x", mkFileItem "o/r" "main" "cfg/y"] ∧
    collectFiles c2EnvB "o/r" "main" "cfg" true false 2 = some [] := ⟨rfl, rfl⟩

/-! ## Claim C3 -/

/-- Claim C3: a transfer whose first two attempts fail with retryable errors
and whose third attempt succeeds, with `max_retries >= 2`, makes the Fetcher
run exactly 3 attempts, sleep `backoff * 1` and then `backoff * 2` before the
second and third attempts, and report success. -/
theorem C3_retry_backoff (run : Nat → WgetResult) (retries : Nat) (backoff : ℚ)
    (rc0 rc1 : Int) (s0 s1 : String)
    (h0 : run 0 = WgetResult.err rc0 s0) (hs0 : alreadyComplete s0 = false)
    (h1 : run 1 = WgetResult.err rc1 s1) (hs1 : alreadyComplete s1 = false)
    (h2 : run 2 = WgetResult.ok) (hr : 2 ≤ retries) :
    download_file_with_wget run retries backoff =
      ⟨true, [backoff, backoff * 2], 3⟩ := by
  obtain ⟨r, rfl⟩ : ∃ r, retries = r + 2 := ⟨retries - 2, by omega⟩
  unfold download_file_with_wget
  rw [wgetGo_retry run (r + 2) backoff 0 (r + 2) rc0 s0 h0 hs0 (by omega)]
  rw [show r + 2 = (r + 1) + 1 from rfl]
  rw [wgetGo_retry run (r + 2) backoff (0 + 1) (r + 1) rc1 s1 (by simpa using h1) hs1 (by omega)]
  rw [wgetGo_ok run (r + 2) backoff (0 + 1 + 1) r (by simpa using h2)]
  norm_num

/-- Witness for C3 at the concrete wget oracle `c3Run` with `retries = 3` and
`backoff = 1`. -/
theorem C3_witness :
    download_file_with_wget c3Run 3 1 = ⟨true, [1, 1 * 2], 3⟩ :=
  C3_retry_backoff c3Run 3 1 4 4 "Read error (Connection timed out)"
    "Read error (Connection timed out)" rfl (by decide) rfl (by decide) rfl (by decide)

/-! ## Claim C4 -/

/-- Claim C4, amended: a root path whose very first listing request (no
cursor, nothing collected) returns a "not a directory" error payload is
reclassified as a single file and — provided the follow-up existence check
(HEAD on the resolve URL, line 224) succeeds — the manifest is exactly the
one single-file item with no duplicate; when entries were already yielded for
the path, the same error instead terminates the listing, keeping exactly what
was collected and adding nothing. -/
theorem C4_not_a_directory_reclassify (env : HfEnv) (repoId ref root msg : String)
    (cur : Option String) (f : Nat)
    (h0 : env.fetch root 0 = FetchOutcome.ok ⟨ApiBody.errorPayload msg, cur⟩)
    (hmsg : isNotDirMsg msg = true)
    (hhead : env.headOk (resolveUrl repoId ref root) = true) :
    get_files_recursive env repoId ref (f + 1) root = some [mkFileItem repoId ref root] ∧
    ∀ (i : Nat) (acc : List ManifestItem) (msg2 : String) (cur2 : Option String) (f2 : Nat),
      acc ≠ [] → env.fetch root i = FetchOutcome.ok ⟨ApiBody.errorPayload msg2, cur2⟩ →
      listLoop env repoId ref (f2 + 1) root i acc = some acc := by
  constructor
  · unfold get_files_recursive
    rw [listLoop_succ]
    simp [listStep, h0, hmsg, hhead]
  · intro i acc msg2 cur2 f2 hacc h
    rw [listLoop_succ]
    cases acc with
    | nil => exact absurd rfl hacc
    | cons a as => simp [listStep, h]

/-- Witness for C4 at the concrete remote `c4EnvB` (error payload on the
first page, HEAD check succeeds). -/
theorem C4_witness :
    get_files_recursive c4EnvB "o/r" "main" 1 "cfg.json" =
      some [mkFileItem "o/r" "main" "cfg.json"] ∧
    listLoop c4EnvB "o/r" "main" 1 "cfg.json" 0 [mkFileItem "o/r" "main" "old"] =
      some [mkFileItem "o/r" "main" "old"] := by
  have h := C4_not_a_directory_reclassify c4EnvB "o/r" "main" "cfg.json"
    "cfg.json is not a directory" none 0 rfl (by decide) (by decide)
  exact ⟨h.1, h.2 0 [mkFileItem "o/r" "main" "old"] "cfg.json is not a directory" none 0
    (by decide) rfl⟩

/-- Counterexample to C4 as stated: against `c4Env` the first listing request
for `cfg.json` returns a "not a directory" error payload, but the existence
check fails, so the manifest contains zero items — not "exactly one item". -/
theorem C4_counterexample :
    get_files_recursive c4Env "o/r" "main" 1 "cfg.json" = some [] ∧
    (get_files_recursive c4Env "o/r" "main" 1 "cfg.json").map List.length = some 0 := ⟨rfl, rfl⟩

/-! ## Claim C5 -/

/-- Claim C5: a flat directory served as `N` pages of `k` file entries each,
with a continuation cursor on every page except the last, walks to a manifest
holding exactly the served entries in served order: one item per entry (so
`N*k` items), and no duplicates as soon as the served paths are distinct. -/
theorem C5_pagination_exhaustive (env : HfEnv) (repoId ref path : String)
    (pages : Nat → List String) (cur : Nat → String) (N k fuel : Nat)
    (hN : 0 < N) (hfuel : N ≤ fuel)
    (hlen : ∀ j, j < N → (pages j).length = k)
    (hcur : ∀ j, j + 1 < N → (cur j).isEmpty = false)
    (hfetch : ∀ j, j < N → env.fetch path j =
      FetchOutcome.ok ⟨ApiBody.entries ((pages j).map fileApiItem),
        if j + 1 < N then some (cur j) else none⟩) :
    get_files_recursive env repoId ref fuel path =
      some ((pathsConcat pages 0 N).map (mkFileItem repoId ref)) ∧
    ((pathsConcat pages 0 N).map (mkFileItem repoId ref)).length = N * k ∧
    ((pathsConcat pages 0 N).Nodup →
      ((pathsConcat pages 0 N).map (mkFileItem repoId ref)).Nodup) := by
  obtain ⟨M, rfl⟩ : ∃ M, N = M + 1 := ⟨N - 1, by omega⟩
  refine ⟨?_, ?_, ?_⟩
  · unfold get_files_recursive
    rw [listLoop_flat env repoId ref path pages cur (M + 1) hcur hfetch M 0 fuel []
      (by omega) (by omega)]
    rw [flatManifest_eq_map]
    simp
  · rw [← flatManifest_eq_map]
    exact flatManifest_length repoId ref pages k (M + 1) 0 (fun j hj1 hj2 => hlen j (by omega))
  · intro hnd
    exact hnd.map (fun a b hab => congrArg Prod.snd hab)

/-- Witness for C5 at the concrete remote `c5Env`: 2 pages of 2 files each,
cursor on the first page only. -/
theorem C5_witness :
    get_files_recursive c5Env "o/r" "main" 2 "m" =
      some ((pathsConcat c5pages 0 2).map (mkFileItem "o/r" "main")) ∧
    ((pathsConcat c5pages 0 2).map (mkFileItem "o/r" "main")).length = 2 * 2 ∧
    ((pathsConcat c5pages 0 2).Nodup →
      ((pathsConcat c5pages 0 2).map (mkFileItem "o/r" "main")).Nodup) :=
  C5_pagination_exhaustive c5Env "o/r" "main" "m" c5pages (fun _ => "x") 2 2 2
    (by decide) (by decide) (by decide) (fun j hj => rfl) (by decide)

/-! ## Claim C6 -/

/-- Claim C6: a wget run that reports "file already fully retrieved" (with a
nonzero exit code) is classified as success, not as a retryable failure: the
Fetcher returns success after that single wget invocation, with no backoff
delays and no further transfer attempts — so a re-run against an
already-complete destination never re-transfers. -/
theorem C6_already_complete (run : Nat → WgetResult) (retries : Nat) (backoff : ℚ)
    (rc : Int) (s : String)
    (h : run 0 = WgetResult.err rc s) (hs : alreadyComplete s = true) :
    download_file_with_wget run retries backoff = ⟨true, [], 1⟩ := by
  unfold download_file_with_wget
  exact wgetGo_already run retries backoff 0 retries rc s h hs

/-- Witness for C6 at the concrete wget oracle `c6Run` (exit code 1, stderr
reporting the file as already fully retrieved). -/
theorem C6_witness :
    download_file_with_wget c6Run 3 1 = ⟨true, [], 1⟩ :=
  C6_already_complete c6Run 3 1 1
    "The output file exists and is already fully retrieved; nothing to do." rfl (by decide)

/-! ## Claim C7 -/

/-- Claim C7: the driver classifies every manifest item — successes plus
failures always exhaust the manifest, so later items are attempted after
earlier failures — and the process exit code is 0 exactly when the URL parsed
and no item failed, and 1 exactly when parsing failed or some item failed. -/
theorem C7_driver_tally_exit (parsed : Option ParsedHf) (fetchOk : ManifestItem → Bool)
    (manifest : List ManifestItem) :
    (downloadLoop fetchOk manifest).1 + (downloadLoop fetchOk manifest).2 = manifest.length ∧
    (downloadLoop fetchOk manifest).2 = (manifest.filter (fun it => !fetchOk it)).length ∧
    (mainExitCode parsed fetchOk manifest = 0 ↔
      parsed.isSome = true ∧ ∀ it ∈ manifest, fetchOk it = true) ∧
    (mainExitCode parsed fetchOk manifest = 1 ↔
      parsed = none ∨ ∃ it ∈ manifest, fetchOk it = false) := by
  have hdl : downloadLoop fetchOk manifest =
      ((manifest.filter (fun it => fetchOk it)).length,
       (manifest.filter (fun it => !fetchOk it)).length) := by
    unfold downloadLoop
    rw [downloadLoop_fold]
    simp
  refine ⟨?_, ?_, ?_, ?_⟩
  · rw [hdl]; exact filter_split_length fetchOk manifest
  · rw [hdl]
  · cases parsed with
    | none => simp [mainExitCode]
    | some pr =>
      simp only [mainExitCode, hdl, Option.isSome_some, true_and]
      by_cases hl : 0 < (manifest.filter (fun it => !fetchOk it)).length
      · rw [if_pos hl]
        constructor
        · intro h; omega
        · intro hall
          exfalso
          have h0 : manifest.filter (fun it => !fetchOk it) = [] :=
            List.filter_eq_nil_iff.mpr (fun a ha => by simp [hall a ha])
          rw [h0] at hl
          simp at hl
      · rw [if_neg hl]
        simp only [true_iff]
        intro it hit
        by_contra hf
        simp only [Bool.not_eq_true] at hf
        have hmem : it ∈ manifest.filter (fun it => !fetchOk it) :=
          List.mem_filter.mpr ⟨hit, by simp [hf]⟩
        have hne : manifest.filter (fun it => !fetchOk it) ≠ [] := by
          intro he
          rw [he] at hmem
          simp at hmem
        exact hl (List.length_pos.mpr hne)
  · cases parsed with
    | none => simp [mainExitCode]
    | some pr =>
      simp only [mainExitCode, hdl]
      constructor
      · intro h
        right
        by_cases hl : 0 < (manifest.filter (fun it => !fetchOk it)).length
        · obtain ⟨it, hit⟩ : ∃ it, it ∈ manifest.filter (fun it => !fetchOk it) := by
            cases hfe : manifest.filter (fun it => !fetchOk it) with
            | nil => rw [hfe] at hl; simp at hl
            | cons b bs => exact ⟨b, List.mem_cons_self b bs⟩
          have hm := List.mem_filter.mp hit
          exact ⟨it, hm.1, by simpa using hm.2⟩
        · rw [if_neg hl] at h
          omega
      · rintro (h | ⟨it, hit, hf⟩)
        · exact absurd h (by simp)
        · have hmem : it ∈ manifest.filter (fun it => !fetchOk it) :=
            List.mem_filter.mpr ⟨hit, by simp [hf]⟩
          have hne : manifest.filter (fun it => !fetchOk it) ≠ [] := by
            intro he
            rw [he] at hmem
            simp at hmem
          rw [if_pos (List.length_pos.mpr hne)]

/-! ## Claim C8 -/

/-- Claim C8: a huggingface.co URL whose path segments are
`[owner, repo, "tree", ref, ...rest]` parses to repository id `owner/repo`,
the ref exactly as given, the remaining segments joined with `/` as path, and
a non-file kind hint (`isFileUrl = false`). -/
theorem C8_tree_url_parse (pathStr owner repo ref : String) (rest : List String)
    (h : splitSlash (stripSlashes pathStr) = owner :: repo :: "tree" :: ref :: rest) :
    parse_hf_url "huggingface.co" pathStr =
      some ⟨owner ++ "/" ++ repo, ref, String.intercalate "/" rest, false⟩ := by
  unfold parse_hf_url
  rw [if_pos rfl, h]
  exact rfl

/-- Witness for C8 at a concrete tree URL. -/
theorem C8_witness :
    parse_hf_url "huggingface.co" "/google/flan-t5-base/tree/main/cfg/a.json" =
      some ⟨"google" ++ "/" ++ "flan-t5-base", "main",
        String.intercalate "/" ["cfg", "a.json"], false⟩ :=
  C8_tree_url_parse "/google/flan-t5-base/tree/main/cfg/a.json" "google" "flan-t5-base" "main"
    ["cfg", "a.json"] rfl

/-! ## Claim C9 -/

/-- Claim C9, amended: the listing of a (flat) directory terminates as soon
as the remote serves a page without a continuation cursor, even if earlier
pages carry an empty entry list together with a cursor; a remote that forever
answers empty pages with cursors instead makes the source's page loop run
without terminating (see `C9_counterexample`). -/
theorem C9_terminates_on_cursorless_page (env : HfEnv) (repoId ref path : String)
    (pages : Nat → List String) (cur : Nat → String) (N fuel : Nat)
    (hN : 0 < N) (hfuel : N ≤ fuel)
    (hcur : ∀ j, j + 1 < N → (cur j).isEmpty = false)
    (hfetch : ∀ j, j < N → env.fetch path j =
      FetchOutcome.ok ⟨ApiBody.entries ((pages j).map fileApiItem),
        if j + 1 < N then some (cur j) else none⟩) :
    (get_files_recursive env repoId ref fuel path).isSome = true := by
  obtain ⟨M, rfl⟩ : ∃ M, N = M + 1 := ⟨N - 1, by omega⟩
  unfold get_files_recursive
  rw [listLoop_flat env repoId ref path pages cur (M + 1) hcur hfetch M 0 fuel []
    (by omega) (by omega)]
  rfl

/-- Witness for C9 at the concrete remote `c9Env`: an empty page carrying a
cursor, then a final one-file page; the walk terminates within 2 pages of
fuel. -/
theorem C9_witness :
    (get_files_recursive c9Env "o/r" "main" 2 "e").isSome = true :=
  C9_terminates_on_cursorless_page c9Env "o/r" "main" "e" c9pages (fun _ => "k") 2 2
    (by decide) (by decide) (fun j hj => rfl) (by decide)

/-- Counterexample to C9 as stated: against the remote `c9Adv`, which always
answers an empty entry list plus a continuation cursor, no amount of fuel
makes the listing finish — the source's page loop does not terminate. -/
theorem C9_counterexample :
    ¬ ∃ fuel : Nat, (get_files_recursive c9Adv "o/r" "main" fuel "sub").isSome = true := by
  rintro ⟨fuel, h⟩
  rw [get_files_recursive, c9Adv_loops] at h
  simp at h

/-! ## Claim C10 -/

/-- Claim C10: the driver saves each item at the output directory joined with
the relative path stripped of all leading slashes; hence, provided the
relative path has no `".."` segment, the save path lies inside the output
directory even when the relative path arrives absolute. -/
theorem C10_save_path_inside (outputDir relPath : String)
    (hout : outputDir ≠ "") (hdd : ¬ hasDotDot relPath) :
    liesInside outputDir (fullSavePath outputDir relPath) := by
  refine ⟨lstripSlash relPath, lstrip_no_slash relPath, hasDotDot_lstrip relPath hdd, ?_⟩
  unfold fullSavePath osPathJoin
  simp only [lstrip_no_slash relPath, Bool.false_eq_true, if_false, if_neg hout]
  cases hend : strEndsWithSlash outputDir <;> simp [hend]

/-- Witness for C10: an absolute relative path is rehomed under the output
directory. -/
theorem C10_witness :
    "/data" ≠ "" ∧ ¬ hasDotDot "/etc/passwd" ∧
    liesInside "/data" (fullSavePath "/data" "/etc/passwd") :=
  ⟨by decide, by decide, C10_save_path_inside "/data" "/etc/passwd" (by decide) (by decide)⟩
